import Mathlib

/-!
Shallow embedding of `src/internal/server/server.go` from
nexus-commerce/product-catalog-service.

The Go file contains two concatenated near-duplicate versions of the same
gRPC adapter package. We embed them as namespaces `V1` (lines 1-172, the
fully status-coded version) and `V2` (lines 174-337, the version that logs
unclassified failures and returns them unwrapped).

Modelling choices:
* `primitive.ObjectID` is a list of byte values with `Hex` as its canonical
  hex string form.
* Go errors from the service collaborator are the closed inductive
  `ServiceErr`; `errors.Is(err, sentinel)` is equality with the sentinel
  (the service returns sentinel values directly).
* A handler's `(resp, error)` pair is `Except GrpcErr resp`: returning
  `status.Error(code, msg)` is `GrpcErr.status code msg`; returning the
  collaborator error unwrapped (no status code) is `GrpcErr.raw e`.
* The caller's `context.Context` is the opaque `Ctx`, threaded unchanged to
  the collaborator. The collaborator `service.Service` is a record of
  functions from context and arguments to results, so an adapter call is a
  pure function of the request and the collaborator's behaviour.
-/

/-- Hexadecimal digit character for a value below 16 (lowercase, as Go's
`ObjectID.Hex`). -/
def hexChar (n : Nat) : Char :=
  if n < 10 then Char.ofNat (48 + n) else Char.ofNat (87 + n)

/-- Two hex characters of one byte value. -/
def byteHex (b : Nat) : List Char :=
  [hexChar (b / 16 % 16), hexChar (b % 16)]

/-- `primitive.ObjectID`: a 12-byte identifier, modelled as its byte values. -/
structure ObjectID where
  bytes : List Nat
deriving DecidableEq

/-- `ObjectID.Hex()`: the canonical lowercase-hex string form. -/
def ObjectID.Hex (o : ObjectID) : String :=
  String.mk (o.bytes.map byteHex).flatten

/-- The closed set of collaborator failures: the sentinel error values of the
service package, the two Go context errors, and unclassified errors carrying
a message. -/
inductive ServiceErr where
  | errNotFound
  | errInvalidSKU
  | errInvalidName
  | errInvalidPrice
  | errInvalidStockQty
  | canceled
  | deadlineExceeded
  | other (msg : String)
deriving DecidableEq

/-- `err.Error()`: the message text of a collaborator failure. The concrete
sentinel texts live in the service package (outside `src/`); the adapter
never inspects them, only forwards them. -/
def ServiceErr.message : ServiceErr → String
  | .errNotFound => "product not found"
  | .errInvalidSKU => "invalid sku"
  | .errInvalidName => "invalid name"
  | .errInvalidPrice => "invalid price"
  | .errInvalidStockQty => "invalid stock quantity"
  | .canceled => "context canceled"
  | .deadlineExceeded => "context deadline exceeded"
  | .other msg => msg

/-- `errors.Is(err, target)` for sentinel values returned directly (no
wrapping): identity of the error value. -/
def errorsIs (e target : ServiceErr) : Bool :=
  e = target

/-- The gRPC status codes this adapter uses. -/
inductive Code where
  | NotFound
  | InvalidArgument
  | Internal
deriving DecidableEq

/-- The error a handler returns: either `status.Error(code, msg)` or the
collaborator's error passed through unwrapped, with no status code. -/
inductive GrpcErr where
  | status (c : Code) (msg : String)
  | raw (e : ServiceErr)
deriving DecidableEq

/-- The caller's `context.Context`, opaque to the adapter. -/
structure Ctx where
  reqId : Nat
deriving DecidableEq

namespace pb

/-- Wire `pb.Product`. -/
structure Product where
  Id : String
  Sku : String
  Name : String
  Description : String
  Price : Float
  StockQuantity : Int
  Category : String
  ImageUrl : String
  IsActive : Bool
  Attributes : List (String × String)

structure GetProductRequest where
  Id : String

structure GetProductResponse where
  Product : Product

structure ListProductsRequest where
  Filter : String
  Page : Int
  PageSize : Int

structure ListProductsResponse where
  Products : List Product
  NextPage : String

structure CreateProductRequest where
  Product : Product

structure CreateProductResponse where
  Product : Product

structure UpdateProductRequest where
  Id : String
  Sku : String
  Name : String
  Description : String
  Price : Float
  StockQuantity : Int
  Category : String
  ImageUrl : String
  IsActive : Bool
  Attributes : List (String × String)

structure UpdateProductResponse where
  Product : Product

structure DeleteProductRequest where
  Id : String

structure DeleteProductResponse where
deriving DecidableEq

structure GetProductBySKURequest where
  Sku : String

structure GetProductBySKUResponse where
  Product : Product

end pb

namespace service

/-- Internal entity `service.Product`. -/
structure Product where
  ID : ObjectID
  Sku : String
  Name : String
  Description : String
  Price : Float
  StockQuantity : Int
  Category : String
  ImageURL : String
  IsActive : Bool
  Attributes : List (String × String)

/-- The injected collaborator `service.Service`: one function per operation,
each taking the caller's context. -/
structure Service where
  GetProduct : Ctx → String → Except ServiceErr Product
  ListProducts : Ctx → String → Int → Int → Except ServiceErr (List Product × String)
  CreateProduct : Ctx → pb.Product → Except ServiceErr Product
  UpdateProduct : Ctx → pb.UpdateProductRequest → Except ServiceErr Product
  DeleteProduct : Ctx → String → Except ServiceErr Unit
  GetProductBySKU : Ctx → String → Except ServiceErr Product

end service

/-- The adapter `Server`: holds only the injected collaborator. -/
structure Server where
  service : service.Service

/-- The single shared projection from internal entity to wire `pb.Product`
(the spec's projection rule); each operation's inline struct literal is
checked against it. -/
def projectProduct (p : service.Product) : pb.Product :=
  { Id := p.ID.Hex
    Sku := p.Sku
    Name := p.Name
    Description := p.Description
    Price := p.Price
    StockQuantity := p.StockQuantity
    Category := p.Category
    ImageUrl := p.ImageURL
    IsActive := p.IsActive
    Attributes := p.Attributes }

namespace V1

/-- Lines 25-48: `GetProduct`, status-coded version. -/
def GetProduct (s : Server) (ctx : Ctx) (r : pb.GetProductRequest) :
    Except GrpcErr pb.GetProductResponse :=
  match s.service.GetProduct ctx r.Id with
  | .error err =>
    if errorsIs err .errNotFound then
      .error (.status .NotFound ("pb not found: " ++ err.message))
    else
      .error (.status .Internal err.message)
  | .ok p =>
    .ok { Product :=
      { Id := p.ID.Hex
        Sku := p.Sku
        Name := p.Name
        Description := p.Description
        Price := p.Price
        StockQuantity := p.StockQuantity
        Category := p.Category
        ImageUrl := p.ImageURL
        IsActive := p.IsActive
        Attributes := p.Attributes } }

/-- Lines 50-81: `ListProducts`, status-coded version. -/
def ListProducts (s : Server) (ctx : Ctx) (r : pb.ListProductsRequest) :
    Except GrpcErr pb.ListProductsResponse :=
  let query := if r.Filter ≠ "" then r.Filter else ""
  match s.service.ListProducts ctx query r.Page r.PageSize with
  | .error err => .error (.status .Internal err.message)
  | .ok (products, nextPage) =>
    .ok { Products := products.map (fun p =>
            { Id := p.ID.Hex
              Sku := p.Sku
              Name := p.Name
              Description := p.Description
              Price := p.Price
              StockQuantity := p.StockQuantity
              Category := p.Category
              ImageUrl := p.ImageURL
              IsActive := p.IsActive
              Attributes := p.Attributes })
          NextPage := nextPage }

/-- Lines 83-109: `CreateProduct`, status-coded version. -/
def CreateProduct (s : Server) (ctx : Ctx) (r : pb.CreateProductRequest) :
    Except GrpcErr pb.CreateProductResponse :=
  match s.service.CreateProduct ctx r.Product with
  | .error err =>
    if errorsIs err .errInvalidSKU || errorsIs err .errInvalidName ||
        errorsIs err .errInvalidPrice || errorsIs err .errInvalidStockQty then
      .error (.status .InvalidArgument err.message)
    else
      .error (.status .Internal err.message)
  | .ok p =>
    .ok { Product :=
      { Id := p.ID.Hex
        Sku := p.Sku
        Name := p.Name
        Description := p.Description
        Price := p.Price
        StockQuantity := p.StockQuantity
        Category := p.Category
        ImageUrl := p.ImageURL
        IsActive := p.IsActive
        Attributes := p.Attributes } }

/-- Lines 111-138: `UpdateProduct`, status-coded version. -/
def UpdateProduct (s : Server) (ctx : Ctx) (r : pb.UpdateProductRequest) :
    Except GrpcErr pb.UpdateProductResponse :=
  match s.service.UpdateProduct ctx r with
  | .error err =>
    if errorsIs err .errNotFound then
      .error (.status .NotFound ("pb not found: " ++ err.message))
    else if errorsIs err .errInvalidSKU || errorsIs err .errInvalidName ||
        errorsIs err .errInvalidPrice || errorsIs err .errInvalidStockQty then
      .error (.status .InvalidArgument err.message)
    else
      .error (.status .Internal err.message)
  | .ok p =>
    .ok { Product :=
      { Id := p.ID.Hex
        Sku := p.Sku
        Name := p.Name
        Description := p.Description
        Price := p.Price
        StockQuantity := p.StockQuantity
        Category := p.Category
        ImageUrl := p.ImageURL
        IsActive := p.IsActive
        Attributes := p.Attributes } }

/-- Lines 140-147: `DeleteProduct`, status-coded version. Every collaborator
failure, including `ErrNotFound`, is mapped to `Internal`. -/
def DeleteProduct (s : Server) (ctx : Ctx) (r : pb.DeleteProductRequest) :
    Except GrpcErr pb.DeleteProductResponse :=
  match s.service.DeleteProduct ctx r.Id with
  | .error err => .error (.status .Internal err.message)
  | .ok _ => .ok ⟨⟩

/-- Lines 149-172: `GetProductBySKU`, status-coded version. -/
def GetProductBySKU (s : Server) (ctx : Ctx) (r : pb.GetProductBySKURequest) :
    Except GrpcErr pb.GetProductBySKUResponse :=
  match s.service.GetProductBySKU ctx r.Sku with
  | .error err =>
    if errorsIs err .errNotFound then
      .error (.status .NotFound ("p not found: " ++ err.message))
    else
      .error (.status .Internal err.message)
  | .ok p =>
    .ok { Product :=
      { Id := p.ID.Hex
        Sku := p.Sku
        Name := p.Name
        Description := p.Description
        Price := p.Price
        StockQuantity := p.StockQuantity
        Category := p.Category
        ImageUrl := p.ImageURL
        IsActive := p.IsActive
        Attributes := p.Attributes } }

end V1

namespace V2

/-- Lines 198-221: `GetProduct`, log-and-unwrap version. -/
def GetProduct (s : Server) (ctx : Ctx) (r : pb.GetProductRequest) :
    Except GrpcErr pb.GetProductResponse :=
  match s.service.GetProduct ctx r.Id with
  | .error err =>
    if errorsIs err .errNotFound then
      .error (.status .NotFound ("pb not found: " ++ err.message))
    else
      .error (.raw err)
  | .ok p =>
    .ok { Product :=
      { Id := p.ID.Hex
        Sku := p.Sku
        Name := p.Name
        Description := p.Description
        Price := p.Price
        StockQuantity := p.StockQuantity
        Category := p.Category
        ImageUrl := p.ImageURL
        IsActive := p.IsActive
        Attributes := p.Attributes } }

/-- Lines 223-255: `ListProducts`, log-and-unwrap version (the `log.Println`
has no observable effect on the returned value). -/
def ListProducts (s : Server) (ctx : Ctx) (r : pb.ListProductsRequest) :
    Except GrpcErr pb.ListProductsResponse :=
  let query := if r.Filter ≠ "" then r.Filter else ""
  match s.service.ListProducts ctx query r.Page r.PageSize with
  | .error err => .error (.raw err)
  | .ok (products, nextPage) =>
    .ok { Products := products.map (fun p =>
            { Id := p.ID.Hex
              Sku := p.Sku
              Name := p.Name
              Description := p.Description
              Price := p.Price
              StockQuantity := p.StockQuantity
              Category := p.Category
              ImageUrl := p.ImageURL
              IsActive := p.IsActive
              Attributes := p.Attributes })
          NextPage := nextPage }

/-- Lines 257-278: `CreateProduct`, log-and-unwrap version: every failure,
validation sentinels included, is returned unwrapped. -/
def CreateProduct (s : Server) (ctx : Ctx) (r : pb.CreateProductRequest) :
    Except GrpcErr pb.CreateProductResponse :=
  match s.service.CreateProduct ctx r.Product with
  | .error err => .error (.raw err)
  | .ok p =>
    .ok { Product :=
      { Id := p.ID.Hex
        Sku := p.Sku
        Name := p.Name
        Description := p.Description
        Price := p.Price
        StockQuantity := p.StockQuantity
        Category := p.Category
        ImageUrl := p.ImageURL
        IsActive := p.IsActive
        Attributes := p.Attributes } }

/-- Lines 280-299: `UpdateProduct`, log-and-unwrap version: every failure,
`ErrNotFound` included, is returned unwrapped. -/
def UpdateProduct (s : Server) (ctx : Ctx) (r : pb.UpdateProductRequest) :
    Except GrpcErr pb.UpdateProductResponse :=
  match s.service.UpdateProduct ctx r with
  | .error err => .error (.raw err)
  | .ok p =>
    .ok { Product :=
      { Id := p.ID.Hex
        Sku := p.Sku
        Name := p.Name
        Description := p.Description
        Price := p.Price
        StockQuantity := p.StockQuantity
        Category := p.Category
        ImageUrl := p.ImageURL
        IsActive := p.IsActive
        Attributes := p.Attributes } }

/-- Lines 301-312: `DeleteProduct`, log-and-unwrap version: `ErrNotFound`
maps to a NotFound status, other failures are returned unwrapped. -/
def DeleteProduct (s : Server) (ctx : Ctx) (r : pb.DeleteProductRequest) :
    Except GrpcErr pb.DeleteProductResponse :=
  match s.service.DeleteProduct ctx r.Id with
  | .error err =>
    if errorsIs err .errNotFound then
      .error (.status .NotFound ("pb not found: " ++ err.message))
    else
      .error (.raw err)
  | .ok _ => .ok ⟨⟩

/-- Lines 314-337: `GetProductBySKU`, log-and-unwrap version. -/
def GetProductBySKU (s : Server) (ctx : Ctx) (r : pb.GetProductBySKURequest) :
    Except GrpcErr pb.GetProductBySKUResponse :=
  match s.service.GetProductBySKU ctx r.Sku with
  | .error err =>
    if errorsIs err .errNotFound then
      .error (.status .NotFound ("p not found: " ++ err.message))
    else
      .error (.raw err)
  | .ok p =>
    .ok { Product :=
      { Id := p.ID.Hex
        Sku := p.Sku
        Name := p.Name
        Description := p.Description
        Price := p.Price
        StockQuantity := p.StockQuantity
        Category := p.Category
        ImageUrl := p.ImageURL
        IsActive := p.IsActive
        Attributes := p.Attributes } }

end V2

/-! Concrete fixtures used by witnesses and concrete evaluations. -/

/-- A concrete caller context. -/
def ctx0 : Ctx := ⟨0⟩

/-- A concrete 12-byte object identifier. -/
def oid0 : ObjectID :=
  ⟨[0x65, 0x4a, 0x1b, 0x2c, 0x3d, 0x4e, 0x5f, 0x60, 0x71, 0x82, 0x93, 0xa4]⟩

/-- A concrete internal entity. -/
def prod0 : service.Product :=
  { ID := oid0
    Sku := "SKU-1"
    Name := "Widget"
    Description := "A widget"
    Price := 1.5
    StockQuantity := 5
    Category := "tools"
    ImageURL := "https://img.example/widget.png"
    IsActive := true
    Attributes := [("color", "red")] }

/-- A concrete wire draft product. -/
def draft0 : pb.Product :=
  { Id := ""
    Sku := "SKU-1"
    Name := "Widget"
    Description := "A widget"
    Price := 1.5
    StockQuantity := 5
    Category := "tools"
    ImageUrl := "https://img.example/widget.png"
    IsActive := true
    Attributes := [("color", "red")] }

/-- A concrete update request. -/
def upd0 : pb.UpdateProductRequest :=
  { Id := "654a1b2c3d4e5f60718293a4"
    Sku := "SKU-1"
    Name := "Widget"
    Description := "A widget"
    Price := 1.5
    StockQuantity := 5
    Category := "tools"
    ImageUrl := "https://img.example/widget.png"
    IsActive := true
    Attributes := [("color", "red")] }

/-- A collaborator that succeeds on every operation, returning `prod0`. -/
def svcOk : service.Service :=
  { GetProduct := fun _ _ => .ok prod0
    ListProducts := fun _ _ _ _ => .ok ([prod0], "tok-next")
    CreateProduct := fun _ _ => .ok prod0
    UpdateProduct := fun _ _ => .ok prod0
    DeleteProduct := fun _ _ => .ok ()
    GetProductBySKU := fun _ _ => .ok prod0 }

/-- A collaborator that fails every operation with the given error. -/
def svcFail (e : ServiceErr) : service.Service :=
  { GetProduct := fun _ _ => .error e
    ListProducts := fun _ _ _ _ => .error e
    CreateProduct := fun _ _ => .error e
    UpdateProduct := fun _ _ => .error e
    DeleteProduct := fun _ _ => .error e
    GetProductBySKU := fun _ _ => .error e }

/-- The adapter over the always-succeeding collaborator. -/
def srvOk : Server := ⟨svcOk⟩

/-- The adapter over the always-failing collaborator. -/
def srvFail (e : ServiceErr) : Server := ⟨svcFail e⟩

/-! Claim theorems. -/

/-- Claim C1 (code divergence, shown by evaluation): the claim says
DeleteProduct maps a collaborator NotFound failure to a NotFound outcome and
any other failure to Internal. The status-coded DeleteProduct (lines
140-147) maps a collaborator NotFound failure to Internal, and the duplicate
DeleteProduct (lines 301-312) returns a non-NotFound failure unwrapped with
no status code rather than as Internal. -/
theorem c1_delete_notFound_not_mapped :
    V1.DeleteProduct (srvFail .errNotFound) ctx0 ⟨"654a1b2c3d4e5f60718293a4"⟩ =
      .error (.status .Internal ServiceErr.errNotFound.message) ∧
    V2.DeleteProduct (srvFail (.other "disk failure")) ctx0 ⟨"654a1b2c3d4e5f60718293a4"⟩ =
      .error (.raw (.other "disk failure")) :=
  ⟨rfl, rfl⟩

/-- Claim C3 (code divergence, shown by evaluation): the claim says
CreateProduct maps each validation sentinel failure to InvalidArgument, but
the duplicate CreateProduct (lines 257-278) returns the invalid-SKU sentinel
failure unwrapped, with no InvalidArgument status code. -/
theorem c3_create_sentinel_unwrapped :
    V2.CreateProduct (srvFail .errInvalidSKU) ctx0 ⟨draft0⟩ =
      .error (.raw .errInvalidSKU) :=
  rfl

/-- Claim C4 (code divergence, shown by evaluation): the claim says
UpdateProduct maps a collaborator NotFound failure to NotFound and each
validation sentinel to InvalidArgument, but the duplicate UpdateProduct
(lines 280-299) returns both unwrapped, with no status code. -/
theorem c4_update_unwrapped :
    V2.UpdateProduct (srvFail .errNotFound) ctx0 upd0 =
      .error (.raw .errNotFound) ∧
    V2.UpdateProduct (srvFail .errInvalidPrice) ctx0 upd0 =
      .error (.raw .errInvalidPrice) :=
  ⟨rfl, rfl⟩

/-- Claim C6 (code divergence, shown by evaluation): the claim says a
collaborator failure caused by context cancellation or deadline expiry must
surface that status and must not be reclassified as Internal; the
status-coded handlers classify every non-sentinel failure, the Go context
errors included, as a status-coded Internal outcome. -/
theorem c6_cancellation_mapped_to_internal :
    V1.GetProduct (srvFail .canceled) ctx0 ⟨"654a1b2c3d4e5f60718293a4"⟩ =
      .error (.status .Internal ServiceErr.canceled.message) ∧
    V1.ListProducts (srvFail .deadlineExceeded) ctx0 ⟨"", 1, 10⟩ =
      .error (.status .Internal ServiceErr.deadlineExceeded.message) ∧
    V1.DeleteProduct (srvFail .canceled) ctx0 ⟨"654a1b2c3d4e5f60718293a4"⟩ =
      .error (.status .Internal ServiceErr.canceled.message) :=
  ⟨rfl, rfl, rfl⟩

/-- Claim C9 (confirmed): the two near-duplicate implementations are not
behaviorally equivalent. On a collaborator NotFound during Delete the first
returns a status-coded Internal while the second returns a status-coded
NotFound; on an unclassified failure during Create the first returns a
status-coded Internal while the second returns the failure unwrapped with no
status code. -/
theorem c9_versions_diverge :
    V1.DeleteProduct (srvFail .errNotFound) ctx0 ⟨"654a1b2c3d4e5f60718293a4"⟩ =
      .error (.status .Internal ServiceErr.errNotFound.message) ∧
    V2.DeleteProduct (srvFail .errNotFound) ctx0 ⟨"654a1b2c3d4e5f60718293a4"⟩ =
      .error (.status .NotFound ("pb not found: " ++ ServiceErr.errNotFound.message)) ∧
    V1.DeleteProduct (srvFail .errNotFound) ctx0 ⟨"654a1b2c3d4e5f60718293a4"⟩ ≠
      V2.DeleteProduct (srvFail .errNotFound) ctx0 ⟨"654a1b2c3d4e5f60718293a4"⟩ ∧
    V1.CreateProduct (srvFail (.other "storage timeout")) ctx0 ⟨draft0⟩ =
      .error (.status .Internal "storage timeout") ∧
    V2.CreateProduct (srvFail (.other "storage timeout")) ctx0 ⟨draft0⟩ =
      .error (.raw (.other "storage timeout")) ∧
    V1.CreateProduct (srvFail (.other "storage timeout")) ctx0 ⟨draft0⟩ ≠
      V2.CreateProduct (srvFail (.other "storage timeout")) ctx0 ⟨draft0⟩ := by
  refine ⟨rfl, rfl, ?_, rfl, rfl, ?_⟩
  · intro h
    injection h with h2
    injection h2 with h3 h4
    exact Code.noConfusion h3
  · intro h
    injection h with h2
    exact GrpcErr.noConfusion h2

/-- Claim C2 (confirmed): for the read-only lookups GetProduct and
GetProductBySKU (status-coded version), a collaborator NotFound failure
yields exactly a NotFound outcome (the response, and hence any Product in
it, is absent), any other collaborator failure yields an Internal outcome
carrying the underlying message, and neither operation can ever produce an
InvalidArgument outcome. -/
theorem c2_lookup_error_mapping (s : Server) (c : Ctx)
    (rg : pb.GetProductRequest) (rs : pb.GetProductBySKURequest) (e : ServiceErr) :
    (s.service.GetProduct c rg.Id = .error .errNotFound →
      V1.GetProduct s c rg =
        .error (.status .NotFound ("pb not found: " ++ ServiceErr.errNotFound.message))) ∧
    (e ≠ .errNotFound → s.service.GetProduct c rg.Id = .error e →
      V1.GetProduct s c rg = .error (.status .Internal e.message)) ∧
    (s.service.GetProductBySKU c rs.Sku = .error .errNotFound →
      V1.GetProductBySKU s c rs =
        .error (.status .NotFound ("p not found: " ++ ServiceErr.errNotFound.message))) ∧
    (e ≠ .errNotFound → s.service.GetProductBySKU c rs.Sku = .error e →
      V1.GetProductBySKU s c rs = .error (.status .Internal e.message)) ∧
    (∀ m, V1.GetProduct s c rg ≠ .error (.status .InvalidArgument m)) ∧
    (∀ m, V1.GetProductBySKU s c rs ≠ .error (.status .InvalidArgument m)) := by
  refine ⟨?_, ?_, ?_, ?_, ?_, ?_⟩
  · intro h
    simp [V1.GetProduct, h, errorsIs]
  · intro hne h
    simp [V1.GetProduct, h, errorsIs, hne]
  · intro h
    simp [V1.GetProductBySKU, h, errorsIs]
  · intro hne h
    simp [V1.GetProductBySKU, h, errorsIs, hne]
  · intro m h
    cases hcall : s.service.GetProduct c rg.Id with
    | error e2 =>
      simp only [V1.GetProduct, hcall, errorsIs] at h
      split at h <;> simp_all
    | ok p =>
      simp [V1.GetProduct, hcall] at h
  · intro m h
    cases hcall : s.service.GetProductBySKU c rs.Sku with
    | error e2 =>
      simp only [V1.GetProductBySKU, hcall, errorsIs] at h
      split at h <;> simp_all
    | ok p =>
      simp [V1.GetProductBySKU, hcall] at h

/-- Witness for C2 at concrete inputs: a NotFound collaborator failure on
GetProduct and an unclassified collaborator failure on GetProductBySKU. -/
theorem c2_witness :
    V1.GetProduct (srvFail .errNotFound) ctx0 ⟨"654a1b2c3d4e5f60718293a4"⟩ =
      .error (.status .NotFound ("pb not found: " ++ ServiceErr.errNotFound.message)) ∧
    V1.GetProductBySKU (srvFail (.other "storage down")) ctx0 ⟨"SKU-1"⟩ =
      .error (.status .Internal (ServiceErr.other "storage down").message) :=
  ⟨(c2_lookup_error_mapping (srvFail .errNotFound) ctx0
      ⟨"654a1b2c3d4e5f60718293a4"⟩ ⟨"SKU-1"⟩ (.other "storage down")).1 rfl,
   (c2_lookup_error_mapping (srvFail (.other "storage down")) ctx0
      ⟨"654a1b2c3d4e5f60718293a4"⟩ ⟨"SKU-1"⟩ (.other "storage down")).2.2.2.1
      (by decide) rfl⟩

/-- Claim C5 (confirmed): on every success path, of both versions, the
projected wire Product has its identifier equal to the canonical hex string
of the entity's ObjectID and every other field copied from the entity
unchanged, and every operation's inline projection agrees with the single
shared projection `projectProduct` (List projects each returned entity with
the same function). -/
theorem c5_projection_consistent (s : Server) (c : Ctx)
    (rg : pb.GetProductRequest) (rc : pb.CreateProductRequest)
    (ru : pb.UpdateProductRequest) (rs : pb.GetProductBySKURequest)
    (rl : pb.ListProductsRequest) (p : service.Product)
    (ps : List service.Product) (tok : String) :
    ((projectProduct p).Id = p.ID.Hex ∧
     (projectProduct p).Sku = p.Sku ∧
     (projectProduct p).Name = p.Name ∧
     (projectProduct p).Description = p.Description ∧
     (projectProduct p).Price = p.Price ∧
     (projectProduct p).StockQuantity = p.StockQuantity ∧
     (projectProduct p).Category = p.Category ∧
     (projectProduct p).ImageUrl = p.ImageURL ∧
     (projectProduct p).IsActive = p.IsActive ∧
     (projectProduct p).Attributes = p.Attributes) ∧
    (s.service.GetProduct c rg.Id = .ok p →
      V1.GetProduct s c rg = .ok ⟨projectProduct p⟩ ∧
      V2.GetProduct s c rg = .ok ⟨projectProduct p⟩) ∧
    (s.service.CreateProduct c rc.Product = .ok p →
      V1.CreateProduct s c rc = .ok ⟨projectProduct p⟩ ∧
      V2.CreateProduct s c rc = .ok ⟨projectProduct p⟩) ∧
    (s.service.UpdateProduct c ru = .ok p →
      V1.UpdateProduct s c ru = .ok ⟨projectProduct p⟩ ∧
      V2.UpdateProduct s c ru = .ok ⟨projectProduct p⟩) ∧
    (s.service.GetProductBySKU c rs.Sku = .ok p →
      V1.GetProductBySKU s c rs = .ok ⟨projectProduct p⟩ ∧
      V2.GetProductBySKU s c rs = .ok ⟨projectProduct p⟩) ∧
    (s.service.ListProducts c (if rl.Filter ≠ "" then rl.Filter else "")
        rl.Page rl.PageSize = .ok (ps, tok) →
      V1.ListProducts s c rl = .ok ⟨ps.map (fun q => projectProduct q), tok⟩ ∧
      V2.ListProducts s c rl = .ok ⟨ps.map (fun q => projectProduct q), tok⟩) := by
  refine ⟨⟨rfl, rfl, rfl, rfl, rfl, rfl, rfl, rfl, rfl, rfl⟩, ?_, ?_, ?_, ?_, ?_⟩
  · intro h
    constructor <;> simp [V1.GetProduct, V2.GetProduct, h, projectProduct]
  · intro h
    constructor <;> simp [V1.CreateProduct, V2.CreateProduct, h, projectProduct]
  · intro h
    constructor <;> simp [V1.UpdateProduct, V2.UpdateProduct, h, projectProduct]
  · intro h
    constructor <;> simp [V1.GetProductBySKU, V2.GetProductBySKU, h, projectProduct]
  · intro h
    simp only [ne_eq, ite_not] at h
    constructor <;> simp [V1.ListProducts, V2.ListProducts, h, projectProduct]

/-- Witness for C5 at concrete inputs: the always-succeeding collaborator
returning the concrete entity `prod0`, checked on GetProduct and List, and
the projected identifier evaluated to its concrete hex string. -/
theorem c5_witness :
    V1.GetProduct srvOk ctx0 ⟨"654a1b2c3d4e5f60718293a4"⟩ = .ok ⟨projectProduct prod0⟩ ∧
    V1.ListProducts srvOk ctx0 ⟨"", 1, 10⟩ =
      .ok ⟨[prod0].map (fun q => projectProduct q), "tok-next"⟩ ∧
    (projectProduct prod0).Id = "654a1b2c3d4e5f60718293a4" :=
  ⟨((c5_projection_consistent srvOk ctx0 ⟨"654a1b2c3d4e5f60718293a4"⟩ ⟨draft0⟩ upd0
      ⟨"SKU-1"⟩ ⟨"", 1, 10⟩ prod0 [prod0] "tok-next").2.1 rfl).1,
   ((c5_projection_consistent srvOk ctx0 ⟨"654a1b2c3d4e5f60718293a4"⟩ ⟨draft0⟩ upd0
      ⟨"SKU-1"⟩ ⟨"", 1, 10⟩ prod0 [prod0] "tok-next").2.2.2.2.2 rfl).1,
   by decide⟩

/-- Claim C7 (confirmed): when the collaborator succeeds, ListProducts
(status-coded version) returns no error; zero entities yield an empty
product sequence (not NotFound); the response has exactly one projected
Product per returned entity, in order; and the collaborator's continuation
token is republished unchanged, also when empty. -/
theorem c7_list_success (s : Server) (c : Ctx) (r : pb.ListProductsRequest)
    (ps : List service.Product) (tok : String)
    (h : s.service.ListProducts c (if r.Filter ≠ "" then r.Filter else "")
        r.Page r.PageSize = .ok (ps, tok)) :
    V1.ListProducts s c r = .ok ⟨ps.map (fun q => projectProduct q), tok⟩ ∧
    (ps = [] → V1.ListProducts s c r = .ok ⟨[], tok⟩) ∧
    (ps.map (fun q => projectProduct q)).length = ps.length ∧
    (∀ i : Nat, (ps.map (fun q => projectProduct q))[i]? =
      (ps[i]?).map (fun q => projectProduct q)) := by
  refine ⟨?_, ?_, ?_, ?_⟩
  · simp only [ne_eq, ite_not] at h
    simp [V1.ListProducts, h, projectProduct]
  · intro hnil
    subst hnil
    simp only [ne_eq, ite_not] at h
    simp [V1.ListProducts, h, projectProduct]
  · simp
  · intro i
    simp

/-- A collaborator whose listing matches zero entities and has no next page. -/
def svcEmpty : service.Service :=
  { GetProduct := fun _ _ => .ok prod0
    ListProducts := fun _ _ _ _ => .ok ([], "")
    CreateProduct := fun _ _ => .ok prod0
    UpdateProduct := fun _ _ => .ok prod0
    DeleteProduct := fun _ _ => .ok ()
    GetProductBySKU := fun _ _ => .ok prod0 }

/-- The adapter over the empty-listing collaborator. -/
def srvEmpty : Server := ⟨svcEmpty⟩

/-- Witness for C7 at concrete inputs: a one-entity page with a continuation
token, and a zero-entity page with an empty token. -/
theorem c7_witness :
    V1.ListProducts srvOk ctx0 ⟨"", 1, 10⟩ =
      .ok ⟨[prod0].map (fun q => projectProduct q), "tok-next"⟩ ∧
    V1.ListProducts srvEmpty ctx0 ⟨"shoes", 2, 50⟩ = .ok ⟨[], ""⟩ :=
  ⟨(c7_list_success srvOk ctx0 ⟨"", 1, 10⟩ [prod0] "tok-next" rfl).1,
   (c7_list_success srvEmpty ctx0 ⟨"shoes", 2, 50⟩ [] "" rfl).2.1 rfl⟩

/-- Claim C8 (confirmed for the status-coded version): only CreateProduct and
UpdateProduct can produce an InvalidArgument outcome. GetProduct,
ListProducts, DeleteProduct and GetProductBySKU never return InvalidArgument
for any collaborator outcome, while Create and Update return InvalidArgument
for each of the four validation sentinels. -/
theorem c8_invalid_argument_only_mutations (s : Server) (c : Ctx)
    (rg : pb.GetProductRequest) (rl : pb.ListProductsRequest)
    (rd : pb.DeleteProductRequest) (rs : pb.GetProductBySKURequest)
    (rc : pb.CreateProductRequest) (ru : pb.UpdateProductRequest) (e : ServiceErr)
    (he : e = .errInvalidSKU ∨ e = .errInvalidName ∨ e = .errInvalidPrice ∨
      e = .errInvalidStockQty) :
    (∀ m, V1.GetProduct s c rg ≠ .error (.status .InvalidArgument m)) ∧
    (∀ m, V1.ListProducts s c rl ≠ .error (.status .InvalidArgument m)) ∧
    (∀ m, V1.DeleteProduct s c rd ≠ .error (.status .InvalidArgument m)) ∧
    (∀ m, V1.GetProductBySKU s c rs ≠ .error (.status .InvalidArgument m)) ∧
    (s.service.CreateProduct c rc.Product = .error e →
      V1.CreateProduct s c rc = .error (.status .InvalidArgument e.message)) ∧
    (s.service.UpdateProduct c ru = .error e →
      V1.UpdateProduct s c ru = .error (.status .InvalidArgument e.message)) := by
  refine ⟨?_, ?_, ?_, ?_, ?_, ?_⟩
  · intro m h
    cases hcall : s.service.GetProduct c rg.Id with
    | error e2 =>
      simp only [V1.GetProduct, hcall, errorsIs] at h
      split at h <;> simp_all
    | ok p =>
      simp [V1.GetProduct, hcall] at h
  · intro m h
    cases hcall : s.service.ListProducts c (if rl.Filter ≠ "" then rl.Filter else "")
        rl.Page rl.PageSize with
    | error e2 =>
      simp only [V1.ListProducts, hcall] at h
      simp at h
    | ok pr =>
      obtain ⟨ps2, tok2⟩ := pr
      simp only [V1.ListProducts, hcall] at h
      simp at h
  · intro m h
    cases hcall : s.service.DeleteProduct c rd.Id with
    | error e2 =>
      simp only [V1.DeleteProduct, hcall] at h
      simp at h
    | ok u =>
      simp [V1.DeleteProduct, hcall] at h
  · intro m h
    cases hcall : s.service.GetProductBySKU c rs.Sku with
    | error e2 =>
      simp only [V1.GetProductBySKU, hcall, errorsIs] at h
      split at h <;> simp_all
    | ok p =>
      simp [V1.GetProductBySKU, hcall] at h
  · intro hcall
    rcases he with rfl | rfl | rfl | rfl <;>
      simp [V1.CreateProduct, hcall, errorsIs]
  · intro hcall
    rcases he with rfl | rfl | rfl | rfl <;>
      simp [V1.UpdateProduct, hcall, errorsIs]

/-- Witness for C8 at concrete inputs: an invalid-price failure on Create and
an invalid-name failure on Update yield InvalidArgument, while an
invalid-SKU failure on Delete does not. -/
theorem c8_witness :
    V1.CreateProduct (srvFail .errInvalidPrice) ctx0 ⟨draft0⟩ =
      .error (.status .InvalidArgument ServiceErr.errInvalidPrice.message) ∧
    V1.UpdateProduct (srvFail .errInvalidName) ctx0 upd0 =
      .error (.status .InvalidArgument ServiceErr.errInvalidName.message) ∧
    V1.DeleteProduct (srvFail .errInvalidSKU) ctx0 ⟨"654a1b2c3d4e5f60718293a4"⟩ ≠
      .error (.status .InvalidArgument ServiceErr.errInvalidSKU.message) :=
  ⟨(c8_invalid_argument_only_mutations (srvFail .errInvalidPrice) ctx0
      ⟨"id"⟩ ⟨"", 1, 10⟩ ⟨"id"⟩ ⟨"SKU-1"⟩ ⟨draft0⟩ upd0 .errInvalidPrice
      (Or.inr (Or.inr (Or.inl rfl)))).2.2.2.2.1 rfl,
   (c8_invalid_argument_only_mutations (srvFail .errInvalidName) ctx0
      ⟨"id"⟩ ⟨"", 1, 10⟩ ⟨"id"⟩ ⟨"SKU-1"⟩ ⟨draft0⟩ upd0 .errInvalidName
      (Or.inr (Or.inl rfl))).2.2.2.2.2 rfl,
   (c8_invalid_argument_only_mutations (srvFail .errInvalidSKU) ctx0
      ⟨"id"⟩ ⟨"", 1, 10⟩ ⟨"654a1b2c3d4e5f60718293a4"⟩ ⟨"SKU-1"⟩ ⟨draft0⟩ upd0
      .errInvalidSKU (Or.inl rfl)).2.2.1 ServiceErr.errInvalidSKU.message⟩

/-- Claim C10 (confirmed): the adapter is deterministic and stateless. Each
operation's result is a function of the request and of the collaborator's
result on that request alone: two invocations, on any two server instances
and caller contexts, whose collaborator results agree produce identical
responses and outcomes. The `Server` record holds only the injected
collaborator, so no state survives between calls. -/
theorem c10_deterministic_stateless (sA sB : Server) (cA cB : Ctx)
    (rg : pb.GetProductRequest) (rl : pb.ListProductsRequest)
    (rc : pb.CreateProductRequest) (ru : pb.UpdateProductRequest)
    (rd : pb.DeleteProductRequest) (rs : pb.GetProductBySKURequest)
    (hg : sA.service.GetProduct cA rg.Id = sB.service.GetProduct cB rg.Id)
    (hl : sA.service.ListProducts cA (if rl.Filter ≠ "" then rl.Filter else "")
        rl.Page rl.PageSize =
      sB.service.ListProducts cB (if rl.Filter ≠ "" then rl.Filter else "")
        rl.Page rl.PageSize)
    (hc : sA.service.CreateProduct cA rc.Product = sB.service.CreateProduct cB rc.Product)
    (hu : sA.service.UpdateProduct cA ru = sB.service.UpdateProduct cB ru)
    (hd : sA.service.DeleteProduct cA rd.Id = sB.service.DeleteProduct cB rd.Id)
    (hs : sA.service.GetProductBySKU cA rs.Sku = sB.service.GetProductBySKU cB rs.Sku) :
    V1.GetProduct sA cA rg = V1.GetProduct sB cB rg ∧
    V1.ListProducts sA cA rl = V1.ListProducts sB cB rl ∧
    V1.CreateProduct sA cA rc = V1.CreateProduct sB cB rc ∧
    V1.UpdateProduct sA cA ru = V1.UpdateProduct sB cB ru ∧
    V1.DeleteProduct sA cA rd = V1.DeleteProduct sB cB rd ∧
    V1.GetProductBySKU sA cA rs = V1.GetProductBySKU sB cB rs := by
  refine ⟨?_, ?_, ?_, ?_, ?_, ?_⟩
  · simp only [V1.GetProduct, hg]
  · simp only [V1.ListProducts, hl]
  · simp only [V1.CreateProduct, hc]
  · simp only [V1.UpdateProduct, hu]
  · simp only [V1.DeleteProduct, hd]
  · simp only [V1.GetProductBySKU, hs]

/-- Witness for C10 at concrete inputs: two server instances over the same
collaborator, invoked with different caller contexts, give equal results. -/
theorem c10_witness :
    V1.GetProduct srvOk ⟨0⟩ ⟨"654a1b2c3d4e5f60718293a4"⟩ =
      V1.GetProduct ⟨svcOk⟩ ⟨1⟩ ⟨"654a1b2c3d4e5f60718293a4"⟩ ∧
    V1.DeleteProduct srvOk ⟨0⟩ ⟨"654a1b2c3d4e5f60718293a4"⟩ =
      V1.DeleteProduct ⟨svcOk⟩ ⟨1⟩ ⟨"654a1b2c3d4e5f60718293a4"⟩ :=
  ⟨(c10_deterministic_stateless srvOk ⟨svcOk⟩ ⟨0⟩ ⟨1⟩
      ⟨"654a1b2c3d4e5f60718293a4"⟩ ⟨"", 1, 10⟩ ⟨draft0⟩ upd0
      ⟨"654a1b2c3d4e5f60718293a4"⟩ ⟨"SKU-1"⟩ rfl rfl rfl rfl rfl rfl).1,
   (c10_deterministic_stateless srvOk ⟨svcOk⟩ ⟨0⟩ ⟨1⟩
      ⟨"654a1b2c3d4e5f60718293a4"⟩ ⟨"", 1, 10⟩ ⟨draft0⟩ upd0
      ⟨"654a1b2c3d4e5f60718293a4"⟩ ⟨"SKU-1"⟩ rfl rfl rfl rfl rfl rfl).2.2.2.2.1⟩
